import Mathlib

/-!
Verification of the render pipeline (`render.js` / `handleRender`) of the
ffmpeg assembly server.  The JavaScript source is shallowly embedded:

* JS numbers are modelled as rationals (`ℚ`); `Math.round` / `Math.ceil`
  become explicit floor/ceil arithmetic on `ℚ`.
* Optional / possibly-falsy request fields are `Option` values; the JS
  `x || d` default idiom on numbers is `jsOrQ`, on strings `truthyStr`.
* The string-templated audio filter graph is embedded structurally: each
  `chain += ...` line of the source appends one `AudioStep`, and the final
  `amix` line becomes the `AudioGraph.mixed` constructor.
* The stateful control flow of `handleRender` (admission counter, try /
  catch / finally, per-stage failure) is embedded as a pure function from
  the pre-state and a failure environment to an event trace plus a
  response.
-/

/-! ### JS-semantics helpers -/

/-- JS `x || d` for a possibly-absent number field: `undefined`, `null` and
`0` are falsy, every other (finite) number is truthy. -/
def jsOrQ (x : Option ℚ) (d : ℚ) : ℚ :=
  match x with
  | none => d
  | some v => if v = 0 then d else v

/-- JS `Math.round` (round half toward positive infinity). -/
def jsRound (q : ℚ) : ℤ :=
  ⌊q + 1/2⌋

/-- JS `Math.ceil`. -/
def jsCeil (q : ℚ) : ℤ :=
  ⌈q⌉

/-- JS truthiness of a possibly-absent string field: `undefined`, `null`
and the empty string are falsy. -/
def truthyStr : Option String → Bool
  | none => false
  | some s => !(s == "")

/-! ### Request data model (`req.body` fields used by `handleRender`) -/

/-- One element of `scenes`. -/
structure Scene where
  video_url : String
  duration : ℚ
  deriving DecidableEq

/-- One element of `music_segments`; all numeric fields may be absent and
are defaulted with `||` by the audio-graph construction. -/
structure MusicSegment where
  music_url : Option String
  start_time : Option ℚ
  duration : Option ℚ
  fade_in : Option ℚ
  fade_out : Option ℚ
  deriving DecidableEq

/-- The request-body fields destructured by `handleRender`. -/
structure RenderRequest where
  scenes : Option (List Scene)
  narration_url : Option String
  music_segments : Option (List MusicSegment)
  music_volume : Option ℚ
  caption_file_url : Option String
  caption_style : Option String
  generation_id : Option String
  b2_path : Option String
  deriving DecidableEq

/-- JS `!scenes || !scenes.length`. -/
def scenesMissing : Option (List Scene) → Bool
  | none => true
  | some l => l.length == 0

/-! ### Audio filter graph (STEP 4 of `handleRender`, lines 318-354)

Each filter of a branch chain is one `AudioStep`; the chain-building
statements of the source append steps in source order. -/

inductive AudioStep where
  /-- `aformat=sample_fmts=...:sample_rates=...:channel_layouts=...` -/
  | aformat (sampleFmt : String) (sampleRate : ℕ) (channelLayout : String)
  /-- `volume=v` -/
  | volume (v : ℚ)
  /-- `afade=t=in:d=d` -/
  | afadeIn (d : ℚ)
  /-- `afade=t=out:st=st:d=d` -/
  | afadeOut (st : ℚ) (d : ℚ)
  /-- `adelay=l|r` -/
  | adelay (l : ℤ) (r : ℤ)
  deriving DecidableEq

/-- One branch of the filter graph: an input stream `[idx:a]`, the chain of
filters applied to it, and its output label. -/
structure AudioBranch where
  inputIdx : ℕ
  steps : List AudioStep
  outLabel : String
  deriving DecidableEq

/-- The assembled audio filter: either the single narration branch with its
label renamed (no mixing), or all branches feeding one `amix`. -/
inductive AudioGraph where
  | single (branch : AudioBranch)
  | mixed (branches : List AudioBranch) (inputs : ℕ)
      (duration : String) (dropoutTransition : ℚ)
  deriving DecidableEq

/-- Branches of the graph, in mix-input order. -/
def AudioGraph.branches : AudioGraph → List AudioBranch
  | .single b => [b]
  | .mixed bs _ _ _ => bs

/-- Whether the graph contains an `amix` stage. -/
def AudioGraph.hasMixStage : AudioGraph → Bool
  | .single _ => false
  | .mixed _ _ _ _ => true

/-- `const vol = music_volume || 0.08;` (line 318). -/
def vol (music_volume : Option ℚ) : ℚ :=
  jsOrQ music_volume 0.08

/-- `[1:a]aformat=sample_fmts=fltp:sample_rates=44100:channel_layouts=stereo[nar]`
(line 322). -/
def narrationBranch : AudioBranch :=
  { inputIdx := 1
  , steps := [AudioStep.aformat "fltp" 44100 "stereo"]
  , outLabel := "nar" }

/-- Body of the `music_segments.forEach` loop (lines 326-345): builds the
branch `[i+2:a]aformat,volume,afade in,afade out(,adelay)[m i]`. -/
def buildMusicBranch (v : ℚ) (i : ℕ) (seg : MusicSegment) : AudioBranch :=
  let delayMs := jsRound (jsOrQ seg.start_time 0 * 1000)
  let fadeIn := jsOrQ seg.fade_in 2
  let fadeOut := jsOrQ seg.fade_out 1.5
  let segDuration := jsOrQ seg.duration 30
  let fadeOutStart := max 0 (segDuration - fadeOut)
  { inputIdx := i + 2
  , steps :=
      [AudioStep.aformat "fltp" 44100 "stereo",
       AudioStep.volume v,
       AudioStep.afadeIn fadeIn,
       AudioStep.afadeOut fadeOutStart fadeOut]
      ++ (if 0 < delayMs then [AudioStep.adelay delayMs delayMs] else [])
  , outLabel := "m" ++ toString i }

/-- The music branches pushed by the loop, guarded by
`music_segments && music_segments.length > 0` (line 325). -/
def musicBranches (music_segments : Option (List MusicSegment))
    (music_volume : Option ℚ) : List AudioBranch :=
  match music_segments with
  | some segs =>
      if 0 < segs.length then
        segs.enum.map (fun p => buildMusicBranch (vol music_volume) p.1 p.2)
      else []
  | none => []

/-- Lines 318-354: accumulate the narration branch and the music branches,
then either rename `[nar]` to `[audio]` (single branch) or feed every
branch into `amix=inputs=n:duration=first:dropout_transition=2[audio]`. -/
def buildAudioFilter (music_segments : Option (List MusicSegment))
    (music_volume : Option ℚ) : AudioGraph :=
  let branches := narrationBranch :: musicBranches music_segments music_volume
  if branches.length = 1 then
    AudioGraph.single { narrationBranch with outLabel := "audio" }
  else
    AudioGraph.mixed branches branches.length "first" 2

/-! ### Caption style presets (`getCaptionStyle`, lines 141-148) -/

def justTextStyle : String :=
  "FontName=Inter,FontSize=22,PrimaryColour=&H00FFFFFF,OutlineColour=&H00000000,BorderStyle=1,Outline=3,Shadow=0,MarginV=40"

def lineBoxStyle : String :=
  "FontName=Inter,FontSize=22,PrimaryColour=&H00FFFFFF,BackColour=&H99000000,BorderStyle=4,Outline=0,Shadow=0,MarginV=40"

def wordBoxStyle : String :=
  "FontName=Inter,FontSize=22,PrimaryColour=&H00FFFFFF,BackColour=&HB3000000,BorderStyle=4,Outline=0,Shadow=0,MarginV=40"

/-- The member names a plain JS object literal inherits from
`Object.prototype`: for these, `styles[styleName]` yields the inherited
member (a function, or the prototype object for `__proto__`) rather than
`undefined`. -/
def objectPrototypeKeys : List String :=
  ["constructor", "hasOwnProperty", "isPrototypeOf", "propertyIsEnumerable",
   "toLocaleString", "toString", "valueOf", "__proto__",
   "__defineGetter__", "__defineSetter__", "__lookupGetter__", "__lookupSetter__"]

/-- The value of the JS expression `styles[styleName] || styles.line_box`:
either one of the style strings of the literal, or a member inherited from
`Object.prototype` (all of which are truthy, so `||` keeps them). -/
inductive StyleValue where
  | str (s : String)
  | protoMember (name : String)
  deriving DecidableEq

/-- `styles[styleName] || styles.line_box` (line 147).  An own key of the
literal returns its string; a name inherited from `Object.prototype`
returns the inherited truthy member, so the `||` fallback does NOT fire;
only a name that is neither (lookup `undefined`, falsy) falls back to
`line_box`. -/
def getCaptionStyle (styleName : String) : StyleValue :=
  if styleName = "just_text" then StyleValue.str justTextStyle
  else if styleName = "line_box" then StyleValue.str lineBoxStyle
  else if styleName = "word_box" then StyleValue.str wordBoxStyle
  else if styleName ∈ objectPrototypeKeys then StyleValue.protoMember styleName
  else StyleValue.str lineBoxStyle

/-- `const hasCaptions = caption_file_url && caption_style && caption_style !== 'none';`
(line 244). -/
def hasCaptions (caption_file_url caption_style : Option String) : Bool :=
  truthyStr caption_file_url && truthyStr caption_style
    && !(caption_style == some "none")

/-! ### Duration normalization (STEP 2 of `handleRender`, lines 264-292) -/

/-- The fixed letterbox/fps part of the per-clip video filter (line 273). -/
def baseVf : String :=
  "fps=30,scale=1920:1080:force_original_aspect_ratio=decrease,pad=1920:1080:(ow-iw)/2:(oh-ih)/2:black"

/-- `const needsPadding = sourceDuration < targetDuration;` (line 271). -/
def needsPadding (sourceDuration targetDuration : ℚ) : Bool :=
  decide (sourceDuration < targetDuration)

/-- `const padSeconds = Math.ceil(targetDuration - sourceDuration) + 1;`
(line 276). -/
def padSeconds (sourceDuration targetDuration : ℚ) : ℤ :=
  jsCeil (targetDuration - sourceDuration) + 1

/-- The per-clip normalization command
`-y -i in -vf vf -t target -c:v libx264 -preset fast -crf 18 -an out`
(lines 280-283), with the `tpad` freeze-pad appended when padding is
needed (lines 275-278). -/
structure ClipCommand where
  overwriteOutput : Bool
  input : String
  vf : String
  t : ℚ
  videoCodec : String
  preset : String
  crf : ℕ
  an : Bool
  output : String
  deriving DecidableEq

def buildClipCommand (inputPath outputPath : String)
    (sourceDuration targetDuration : ℚ) : ClipCommand :=
  let vf := baseVf ++
    (if needsPadding sourceDuration targetDuration then
       ",tpad=stop_mode=clone:stop_duration="
         ++ toString (padSeconds sourceDuration targetDuration)
     else "")
  { overwriteOutput := true
  , input := inputPath
  , vf := vf
  , t := targetDuration
  , videoCodec := "libx264"
  , preset := "fast"
  , crf := 18
  , an := true
  , output := outputPath }

/-! ### Orchestrator model (`handleRender`, lines 159-443)

The handler is embedded as a pure function from the admission counter
pre-state, the request and a failure environment (which external effects
succeed) to a trace of observable events plus the HTTP response.  The
`finally { activeRenders--; }` and the position of `activeRenders++`
become explicit trace events. -/

/-- Observable events of one `handleRender` invocation. -/
inductive Ev where
  | incCounter
  | decCounter
  | mkdirWorkspace
  | download
  | runSubprocess
  | upload
  | writeLog
  | respond (code : ℕ)
  deriving DecidableEq

/-- Which external effects succeed during the job. -/
structure Env where
  downloadsOk : Bool
  preprocessOk : Bool
  assemblyOk : Bool
  outputExists : Bool
  outputSize : ℕ
  uploadOk : Bool
  deriving DecidableEq

/-- The JSON body sent back, plus the HTTP status code used to send it. -/
structure RenderResponse where
  httpStatus : ℕ
  status : String
  success : Option Bool
  error : Option String
  deriving DecidableEq

/-- `const MAX_CONCURRENT_RENDERS = 2;` (line 81). -/
def MAX_CONCURRENT_RENDERS : ℕ := 2

/-- The 503 body of lines 164-167. -/
def busyResponse (active : ℕ) : RenderResponse :=
  { httpStatus := 503
  , status := "error"
  , success := none
  , error := some ("Server busy: " ++ toString active ++ "/"
      ++ toString MAX_CONCURRENT_RENDERS ++ " renders active. Try again later.") }

/-- The three validation throws of lines 201-203, in source order. -/
def validateRequest (req : RenderRequest) : Option String :=
  if scenesMissing req.scenes then some "No scenes provided"
  else if truthyStr req.narration_url = false then some "No narration_url provided"
  else if truthyStr req.b2_path = false then some "No b2_path provided"
  else none

/-- The `try` block of `handleRender` (lines 200-421 up to the response):
validation, workspace creation, downloads, the per-clip preprocess loop,
final assembly, post-encode validation of the output file (exists, size
not under 1000 bytes), and upload.  Returns the events performed and
either the output size or the thrown error message. -/
def tryBody (req : RenderRequest) (env : Env) : List Ev × Except String ℕ :=
  match validateRequest req with
  | some msg => ([], Except.error msg)
  | none =>
    let evDl : List Ev := [Ev.mkdirWorkspace, Ev.download]
    if env.downloadsOk = false then
      (evDl, Except.error "Download failed")
    else
      let evPre := evDl ++ [Ev.runSubprocess]
      if env.preprocessOk = false then
        (evPre, Except.error "FFmpeg failed (clip preprocess)")
      else
        let evAsm := evPre ++ [Ev.runSubprocess]
        if env.assemblyOk = false then
          (evAsm, Except.error "FFmpeg failed (final assembly)")
        else if env.outputExists = false then
          (evAsm, Except.error "FFmpeg produced no output file")
        else if env.outputSize < 1000 then
          (evAsm, Except.error ("Output file suspiciously small: "
            ++ toString env.outputSize ++ " bytes"))
        else
          let evUp := evAsm ++ [Ev.upload]
          if env.uploadOk = false then
            (evUp, Except.error "Upload failed")
          else
            (evUp, Except.ok env.outputSize)

/-- `handleRender`: the admission gate (lines 163-168), `activeRenders++`
(line 170), the `try`/`catch` (success response line 421, error response
line 439, both after `writeRenderLog`), and the `finally`
`activeRenders--` (line 441). -/
def handleRender (active : ℕ) (req : RenderRequest) (env : Env) :
    List Ev × RenderResponse :=
  if MAX_CONCURRENT_RENDERS ≤ active then
    ([Ev.respond 503], busyResponse active)
  else
    match tryBody req env with
    | (evs, Except.ok _) =>
        ([Ev.incCounter] ++ evs ++ [Ev.writeLog, Ev.respond 200, Ev.decCounter],
         { httpStatus := 200, status := "complete"
         , success := some true, error := none })
    | (evs, Except.error msg) =>
        ([Ev.incCounter] ++ evs ++ [Ev.writeLog, Ev.respond 500, Ev.decCounter],
         { httpStatus := 500, status := "error"
         , success := some false, error := some msg })

/-! ### Concrete fixtures used by witnesses and counterexamples -/

/-- A minimal valid request. -/
def okReq : RenderRequest :=
  { scenes := some [{ video_url := "http://h/clip.mp4", duration := 5 }]
  , narration_url := some "http://h/narration.mp3"
  , music_segments := none
  , music_volume := none
  , caption_file_url := none
  , caption_style := none
  , generation_id := some "g1"
  , b2_path := some "videos/out.mp4" }

/-- An environment in which every stage succeeds with a large output. -/
def okEnv : Env :=
  { downloadsOk := true, preprocessOk := true, assemblyOk := true
  , outputExists := true, outputSize := 123456, uploadOk := true }

/-- Every stage succeeds but the output file is exactly 1000 bytes. -/
def env1000 : Env :=
  { okEnv with outputSize := 1000 }

/-- A request rejected by validation: no scenes at all. -/
def noScenesReq : RenderRequest :=
  { okReq with scenes := none }

/-- A music segment with every field present. -/
def seg1 : MusicSegment :=
  { music_url := some "http://h/music.mp3"
  , start_time := some 3, duration := some 20
  , fade_in := some 2, fade_out := some 1 }

/-- Every stage succeeds but FFmpeg leaves no output file. -/
def envNoOutput : Env :=
  { okEnv with outputExists := false }

/-- Whether a filter step is an `adelay`. -/
def isDelayStep : AudioStep → Bool
  | .adelay _ _ => true
  | _ => false

/-! ### Helper lemmas -/

theorem jsOrQ_none (d : ℚ) : jsOrQ none d = d := rfl

theorem jsOrQ_some_zero (x : ℚ) : jsOrQ (some x) 0 = x := by
  rcases eq_or_ne x 0 with h | h <;> simp [jsOrQ, h]

theorem jsOrQ_zero_arg (d : ℚ) : jsOrQ (some 0) d = d := by
  simp [jsOrQ]

theorem jsOrQ_some_ne (x d : ℚ) (h : x ≠ 0) : jsOrQ (some x) d = x := by
  simp [jsOrQ, h]

theorem jsRound_zero : jsRound 0 = 0 := by
  unfold jsRound
  rw [Int.floor_eq_zero_iff]
  simp [Set.mem_Ico]
  norm_num

/-- Neither counter event ever appears inside the `try`-block trace: the
counter is touched only by line 170 and the `finally` of line 441. -/
theorem tryBody_no_counter_ops (req : RenderRequest) (env : Env) :
    Ev.incCounter ∉ (tryBody req env).1 ∧ Ev.decCounter ∉ (tryBody req env).1 := by
  unfold tryBody
  rcases hv : validateRequest req with _ | msg
  · simp only [hv]
    split_ifs <;> simp
  · simp [hv]

/-! ### Claim theorems -/

/-- C2: for every scene, `needs_padding` holds exactly when the probed
source duration is strictly below the requested target; when it holds, a
freeze-pad (`tpad` last-frame clone) of `ceil(target - source) + 1`
seconds is appended to the video filter; and in every case the command
trims to exactly the target duration (`-t`) and strips the clip's own
audio (`-an`). -/
theorem clip_normalization_spec (inp outp : String) (s t : ℚ) :
    (needsPadding s t = true ↔ s < t)
    ∧ (s < t → (buildClipCommand inp outp s t).vf
        = baseVf ++ ",tpad=stop_mode=clone:stop_duration="
            ++ toString (jsCeil (t - s) + 1))
    ∧ (¬ s < t → (buildClipCommand inp outp s t).vf = baseVf)
    ∧ (buildClipCommand inp outp s t).t = t
    ∧ (buildClipCommand inp outp s t).an = true := by
  refine ⟨by simp [needsPadding], ?_, ?_, rfl, rfl⟩
  · intro h
    simp [buildClipCommand, needsPadding, padSeconds, h, String.append_assoc]
  · intro h
    simp [buildClipCommand, needsPadding, h]

/-- Witness for `clip_normalization_spec`: a 2-second source stretched to a
5-second target is padded by `ceil(3)+1` seconds and trimmed to 5. -/
theorem clip_normalization_spec_witness :
    ((2:ℚ) < 5)
    ∧ (buildClipCommand "in.mp4" "out.mp4" 2 5).vf
        = baseVf ++ ",tpad=stop_mode=clone:stop_duration="
            ++ toString (jsCeil ((5:ℚ) - 2) + 1)
    ∧ (buildClipCommand "in.mp4" "out.mp4" 2 5).t = 5
    ∧ (buildClipCommand "in.mp4" "out.mp4" 2 5).an = true :=
  ⟨by norm_num,
   (clip_normalization_spec "in.mp4" "out.mp4" 2 5).2.1 (by norm_num),
   (clip_normalization_spec "in.mp4" "out.mp4" 2 5).2.2.2.1,
   (clip_normalization_spec "in.mp4" "out.mp4" 2 5).2.2.2.2⟩

/-- C4: a request arriving while the active count is at or above the
ceiling is answered immediately with a 503 whose error message carries the
active and maximum counts; the counter is untouched, no workspace is
created and no render log is written. -/
theorem busy_rejection_spec (active : ℕ) (req : RenderRequest) (env : Env)
    (h : MAX_CONCURRENT_RENDERS ≤ active) :
    handleRender active req env = ([Ev.respond 503], busyResponse active)
    ∧ (handleRender active req env).2.error
        = some ("Server busy: " ++ toString active ++ "/"
            ++ toString MAX_CONCURRENT_RENDERS ++ " renders active. Try again later.")
    ∧ (handleRender active req env).2.httpStatus = 503
    ∧ Ev.incCounter ∉ (handleRender active req env).1
    ∧ Ev.decCounter ∉ (handleRender active req env).1
    ∧ Ev.mkdirWorkspace ∉ (handleRender active req env).1
    ∧ Ev.writeLog ∉ (handleRender active req env).1 := by
  simp [handleRender, h, busyResponse]

/-- Witness for `busy_rejection_spec` with both active slots taken. -/
theorem busy_rejection_spec_witness :
    MAX_CONCURRENT_RENDERS ≤ 2
    ∧ handleRender 2 okReq okEnv = ([Ev.respond 503], busyResponse 2) :=
  ⟨by decide, (busy_rejection_spec 2 okReq okEnv (by decide)).1⟩

/-- C5 (counterexample): a request with no scenes is rejected by
validation, yet `handleRender` still writes a render-log entry for it
(the `catch` block of lines 423-439 calls `writeRenderLog`), so the
rejection does leave persistent state. -/
theorem validation_rejection_log_cex :
    validateRequest noScenesReq = some "No scenes provided"
    ∧ Ev.writeLog ∈ (handleRender 0 noScenesReq okEnv).1 := by decide

/-- C5 (amended): an admitted request that fails validation allocates no
workspace, starts no download, subprocess or upload, and is answered with
a 500 error carrying the validation message — but a render-log entry
recording the failure IS written. -/
theorem validation_rejection_spec (active : ℕ) (req : RenderRequest) (env : Env)
    (msg : String) (hA : active < MAX_CONCURRENT_RENDERS)
    (hV : validateRequest req = some msg) :
    Ev.mkdirWorkspace ∉ (handleRender active req env).1
    ∧ Ev.download ∉ (handleRender active req env).1
    ∧ Ev.runSubprocess ∉ (handleRender active req env).1
    ∧ Ev.upload ∉ (handleRender active req env).1
    ∧ Ev.writeLog ∈ (handleRender active req env).1
    ∧ (handleRender active req env).2
        = { httpStatus := 500, status := "error"
          , success := some false, error := some msg } := by
  have hA2 : ¬ MAX_CONCURRENT_RENDERS ≤ active := by omega
  simp [handleRender, hA2, tryBody, hV]

/-- Witness for `validation_rejection_spec` on the no-scenes request. -/
theorem validation_rejection_spec_witness :
    Ev.mkdirWorkspace ∉ (handleRender 0 noScenesReq okEnv).1
    ∧ Ev.writeLog ∈ (handleRender 0 noScenesReq okEnv).1 :=
  ⟨(validation_rejection_spec 0 noScenesReq okEnv "No scenes provided"
      (by decide) (by decide)).1,
   (validation_rejection_spec 0 noScenesReq okEnv "No scenes provided"
      (by decide) (by decide)).2.2.2.2.1⟩

/-- C8 (counterexample): the style name "toString" is none of the three
presets, yet `styles["toString"]` is the truthy member inherited from
`Object.prototype`, so `|| styles.line_box` never fires and the resolved
value is NOT the `line_box` parameter string — refuting "exactly the
line_box parameters for any other name". -/
theorem caption_style_proto_cex :
    "toString" ≠ "just_text" ∧ "toString" ≠ "line_box" ∧ "toString" ≠ "word_box"
    ∧ getCaptionStyle "toString" = StyleValue.protoMember "toString"
    ∧ getCaptionStyle "toString" ≠ StyleValue.str lineBoxStyle := by decide

/-- C8 (amended): the caption overlay is produced iff a non-empty caption
file URL and a non-empty caption style other than "none" are both
supplied; the three preset names resolve to their fixed parameter
strings; any other style name resolves to the `line_box` parameters
UNLESS it is a member name inherited from `Object.prototype`, in which
case the lookup returns that inherited member instead. -/
theorem caption_overlay_spec (u s : Option String) (name : String) :
    (hasCaptions u s = true ↔
      ((∃ url, u = some url ∧ url ≠ "")
        ∧ (∃ st, s = some st ∧ st ≠ "" ∧ st ≠ "none")))
    ∧ getCaptionStyle "just_text" = StyleValue.str justTextStyle
    ∧ getCaptionStyle "line_box" = StyleValue.str lineBoxStyle
    ∧ getCaptionStyle "word_box" = StyleValue.str wordBoxStyle
    ∧ (name ≠ "just_text" → name ≠ "line_box" → name ≠ "word_box" →
        name ∉ objectPrototypeKeys →
        getCaptionStyle name = StyleValue.str lineBoxStyle)
    ∧ (name ≠ "just_text" → name ≠ "line_box" → name ≠ "word_box" →
        name ∈ objectPrototypeKeys →
        getCaptionStyle name = StyleValue.protoMember name) := by
  refine ⟨?_, by decide, by decide, by decide, ?_, ?_⟩
  · cases u <;> cases s <;> (simp [hasCaptions, truthyStr]; try tauto)
  · intro h1 h2 h3 h4
    simp [getCaptionStyle, h1, h2, h3, h4]
  · intro h1 h2 h3 h4
    simp [getCaptionStyle, h1, h2, h3, h4]

/-- Witness for `caption_overlay_spec`: a real URL with the `word_box`
style produces the overlay; an unknown ordinary name resolves to the
`line_box` parameters; an inherited prototype name does not. -/
theorem caption_overlay_spec_witness :
    hasCaptions (some "http://h/caps.srt") (some "word_box") = true
    ∧ getCaptionStyle "fancy_style" = StyleValue.str lineBoxStyle
    ∧ getCaptionStyle "constructor" = StyleValue.protoMember "constructor" := by
  refine ⟨?_, ?_, ?_⟩
  · exact (caption_overlay_spec (some "http://h/caps.srt") (some "word_box") "x").1.mpr
      ⟨⟨_, rfl, by decide⟩, _, rfl, by decide, by decide⟩
  · exact (caption_overlay_spec none none "fancy_style").2.2.2.2.1
      (by decide) (by decide) (by decide) (by decide)
  · exact (caption_overlay_spec none none "constructor").2.2.2.2.2
      (by decide) (by decide) (by decide) (by decide)

/-- C1: with zero music segments the audio graph is exactly the formatted
narration branch renamed to the final `audio` label and has no mix stage;
with N ≥ 1 segments it is the narration branch followed by the N music
branches in request order, all feeding one `amix` with `inputs = N + 1`,
`duration = first` and `dropout_transition = 2`. -/
theorem audio_graph_spec (ms : Option (List MusicSegment)) (mv : Option ℚ) :
    ((ms = none ∨ ms = some []) →
      buildAudioFilter ms mv
        = AudioGraph.single { inputIdx := 1
                            , steps := [AudioStep.aformat "fltp" 44100 "stereo"]
                            , outLabel := "audio" }
      ∧ (buildAudioFilter ms mv).hasMixStage = false)
    ∧ (∀ segs, ms = some segs → segs ≠ [] →
        buildAudioFilter ms mv
          = AudioGraph.mixed
              (narrationBranch
                :: segs.enum.map (fun p => buildMusicBranch (vol mv) p.1 p.2))
              (segs.length + 1) "first" 2) := by
  constructor
  · rintro (rfl | rfl) <;> exact ⟨rfl, rfl⟩
  · rintro segs rfl hne
    have hpos : 0 < segs.length := List.length_pos.mpr hne
    have hlen : ¬ ((narrationBranch :: musicBranches (some segs) mv).length = 1) := by
      simp only [musicBranches, if_pos hpos, List.length_cons, List.length_map,
        List.enum_length]
      omega
    simp [buildAudioFilter, musicBranches, hpos, hlen, hne]

/-- Witness for `audio_graph_spec`: no music gives the renamed narration
branch; one segment gives a two-input mix. -/
theorem audio_graph_spec_witness :
    buildAudioFilter none none
      = AudioGraph.single { inputIdx := 1
                          , steps := [AudioStep.aformat "fltp" 44100 "stereo"]
                          , outLabel := "audio" }
    ∧ buildAudioFilter (some [seg1]) none
      = AudioGraph.mixed
          (narrationBranch
            :: [seg1].enum.map (fun p => buildMusicBranch (vol none) p.1 p.2))
          2 "first" 2 :=
  ⟨((audio_graph_spec none none).1 (Or.inl rfl)).1,
   (audio_graph_spec (some [seg1]) none).2 [seg1] rfl (by simp)⟩

/-- C9: the shared music gain `music_volume || 0.08` falls back to 0.08
when `music_volume` is absent or zero, is never 0 for any request, and is
the gain carried by every music branch the audio filter is built from, so
music can never be fully muted through `music_volume`. -/
theorem music_gain_spec (mv : Option ℚ) (segs : List MusicSegment) :
    ((mv = none ∨ mv = some 0) → vol mv = 0.08)
    ∧ vol mv ≠ 0
    ∧ ∀ b ∈ musicBranches (some segs) mv, AudioStep.volume (vol mv) ∈ b.steps := by
  refine ⟨?_, ?_, ?_⟩
  · rintro (rfl | rfl) <;> simp [vol, jsOrQ]
  · cases mv with
    | none => norm_num [vol, jsOrQ]
    | some v =>
      rcases eq_or_ne v 0 with h | h
      · norm_num [vol, jsOrQ, h]
      · simp [vol, jsOrQ, h]
  · intro b hb
    rcases segs with _ | ⟨x, xs⟩
    · simp [musicBranches] at hb
    · have hpos : 0 < (x :: xs).length := by simp
      simp only [musicBranches, if_pos hpos] at hb
      obtain ⟨p, hp, rfl⟩ := List.mem_map.mp hb
      simp [buildMusicBranch]

/-- Witness for `music_gain_spec` at an absent `music_volume`. -/
theorem music_gain_spec_witness :
    vol none = 0.08 ∧ vol none ≠ 0 :=
  ⟨(music_gain_spec none []).1 (Or.inl rfl), (music_gain_spec none []).2.1⟩

/-- C10: a music segment whose fields are absent (or zero, also falsy) is
defaulted when its branch is built: `start_time` to 0 (hence no delay
step), `fade_in` to 2, `fade_out` to 1.5 and `duration` to 30, so the
fade-out starts at 28.5 seconds. -/
theorem music_defaults_spec (v : ℚ) (i : ℕ) (url : Option String)
    (st d fi fo : Option ℚ)
    (hst : st = none ∨ st = some 0) (hd : d = none ∨ d = some 0)
    (hfi : fi = none ∨ fi = some 0) (hfo : fo = none ∨ fo = some 0) :
    buildMusicBranch v i
      { music_url := url, start_time := st, duration := d
      , fade_in := fi, fade_out := fo }
      = { inputIdx := i + 2
        , steps := [AudioStep.aformat "fltp" 44100 "stereo",
                    AudioStep.volume v, AudioStep.afadeIn 2,
                    AudioStep.afadeOut 28.5 1.5]
        , outLabel := "m" ++ toString i } := by
  have hmax : max (0:ℚ) (30 - 1.5) = 28.5 := by norm_num
  rcases hst with rfl | rfl <;> rcases hd with rfl | rfl <;>
    rcases hfi with rfl | rfl <;> rcases hfo with rfl | rfl <;>
    simp [buildMusicBranch, jsOrQ, jsRound_zero, hmax]

/-- Witness for `music_defaults_spec`: the all-absent segment. -/
theorem music_defaults_spec_witness :
    buildMusicBranch 0.5 3
      { music_url := none, start_time := none, duration := none
      , fade_in := none, fade_out := none }
      = { inputIdx := 5
        , steps := [AudioStep.aformat "fltp" 44100 "stereo",
                    AudioStep.volume 0.5, AudioStep.afadeIn 2,
                    AudioStep.afadeOut 28.5 1.5]
        , outLabel := "m3" } :=
  music_defaults_spec 0.5 3 none none none none none
    (Or.inl rfl) (Or.inl rfl) (Or.inl rfl) (Or.inl rfl)

/-- C6 (counterexample): a start time of 0.0001 seconds is strictly
positive, yet the built branch contains no delay step, because
`Math.round(0.0001 * 1000) = 0` fails the `delayMs > 0` guard — refuting
"delay applied if and only if start_time > 0". -/
theorem music_branch_delay_cex :
    (0 : ℚ) < 1/10000
    ∧ ((buildMusicBranch 1 0
        { music_url := none, start_time := some (1/10000), duration := some 30
        , fade_in := some 2, fade_out := some 1.5 }).steps.any isDelayStep) = false := by
  have h1 : jsRound ((10000:ℚ)⁻¹ * 1000) = 0 := by
    unfold jsRound
    rw [show ((10000:ℚ)⁻¹ * 1000 + 1/2) = 3/5 by norm_num]
    rw [Int.floor_eq_zero_iff]
    simp [Set.mem_Ico]
    norm_num
  constructor
  · norm_num
  · simp [buildMusicBranch, jsOrQ_some_zero, h1, isDelayStep, jsOrQ]

/-- C6 (amended): each music branch applies, in order, the stereo format,
the shared gain, a fade-in of `fade_in` seconds, a fade-out of `fade_out`
seconds starting at `max(0, duration - fade_out)`, and a delay of
`round(start_time*1000)` milliseconds on both channels if and only if
that rounded millisecond value is positive. -/
theorem music_branch_chain_spec (v st d fi fo : ℚ) (i : ℕ) (url : Option String)
    (hd : d ≠ 0) (hfi : fi ≠ 0) (hfo : fo ≠ 0) :
    (buildMusicBranch v i
      { music_url := url, start_time := some st, duration := some d
      , fade_in := some fi, fade_out := some fo }).steps
      = [AudioStep.aformat "fltp" 44100 "stereo",
         AudioStep.volume v,
         AudioStep.afadeIn fi,
         AudioStep.afadeOut (max 0 (d - fo)) fo]
        ++ (if 0 < jsRound (st * 1000)
            then [AudioStep.adelay (jsRound (st * 1000)) (jsRound (st * 1000))]
            else []) := by
  simp [buildMusicBranch, jsOrQ_some_zero, jsOrQ_some_ne _ _ hd,
    jsOrQ_some_ne _ _ hfi, jsOrQ_some_ne _ _ hfo]

/-- Witness for `music_branch_chain_spec`: a fully-specified segment
starting 3 seconds in. -/
theorem music_branch_chain_spec_witness :
    (30:ℚ) ≠ 0
    ∧ (buildMusicBranch 1 0
        { music_url := none, start_time := some 3, duration := some 30
        , fade_in := some 2, fade_out := some 1 }).steps
        = [AudioStep.aformat "fltp" 44100 "stereo", AudioStep.volume 1,
           AudioStep.afadeIn 2, AudioStep.afadeOut (max 0 ((30:ℚ) - 1)) 1]
          ++ (if 0 < jsRound ((3:ℚ) * 1000)
              then [AudioStep.adelay (jsRound ((3:ℚ) * 1000)) (jsRound ((3:ℚ) * 1000))]
              else []) :=
  ⟨by norm_num,
   music_branch_chain_spec 1 3 30 2 1 0 none (by norm_num) (by norm_num) (by norm_num)⟩

/-- C3: the admission counter's increment is the first trace event of every
admitted job (before any I/O), the decrement happens exactly once on every
exit path, the net counter change of any request is zero, and along every
prefix of the trace the counter value never exceeds the ceiling of 2. -/
theorem admission_counter_spec (active : ℕ) (req : RenderRequest) (env : Env) :
    ((handleRender active req env).1.count Ev.incCounter
      = (handleRender active req env).1.count Ev.decCounter)
    ∧ (active < MAX_CONCURRENT_RENDERS →
        (handleRender active req env).1.head? = some Ev.incCounter
        ∧ (handleRender active req env).1.count Ev.decCounter = 1)
    ∧ (active ≤ MAX_CONCURRENT_RENDERS →
        ∀ p, p <+: (handleRender active req env).1 →
          active + p.count Ev.incCounter
            ≤ MAX_CONCURRENT_RENDERS + p.count Ev.decCounter) := by
  obtain ⟨hinc, hdec⟩ := tryBody_no_counter_ops req env
  by_cases hA : MAX_CONCURRENT_RENDERS ≤ active
  · refine ⟨by simp [handleRender, hA], ?_, ?_⟩
    · intro h; omega
    · intro hle p hp
      have h1 : p.count Ev.incCounter
          ≤ (handleRender active req env).1.count Ev.incCounter :=
        (hp.sublist).count_le _
      have h2 : (handleRender active req env).1.count Ev.incCounter = 0 := by
        simp [handleRender, hA]
      omega
  · rcases ht : tryBody req env with ⟨evs, r⟩
    rw [ht] at hinc hdec
    have e1 : evs.count Ev.incCounter = 0 := List.count_eq_zero.mpr hinc
    have e2 : evs.count Ev.decCounter = 0 := List.count_eq_zero.mpr hdec
    have htr : ∃ c, (handleRender active req env).1
        = Ev.incCounter :: (evs ++ [Ev.writeLog, Ev.respond c, Ev.decCounter]) := by
      cases r with
      | ok n => exact ⟨200, by simp [handleRender, hA, ht]⟩
      | error m => exact ⟨500, by simp [handleRender, hA, ht]⟩
    obtain ⟨c, htrace⟩ := htr
    refine ⟨?_, fun _ => ⟨by simp [htrace], ?_⟩, ?_⟩
    · simp [htrace, List.count_append, List.count_cons, e1, e2]
    · simp [htrace, List.count_append, List.count_cons, e2]
    · intro hle p hp
      have h1 : p.count Ev.incCounter
          ≤ (handleRender active req env).1.count Ev.incCounter :=
        (hp.sublist).count_le _
      have h2 : (handleRender active req env).1.count Ev.incCounter = 1 := by
        simp [htrace, List.count_append, List.count_cons, e1]
      omega

/-- Witness for `admission_counter_spec` on an accepted request. -/
theorem admission_counter_spec_witness :
    (handleRender 1 okReq okEnv).1.head? = some Ev.incCounter
    ∧ (handleRender 1 okReq okEnv).1.count Ev.decCounter = 1 :=
  (admission_counter_spec 1 okReq okEnv).2.1 (by decide)

/-- A successful `try` block implies the post-encode validation passed:
the output file existed and met the 1000-byte size floor. -/
theorem tryBody_ok_inv (req : RenderRequest) (env : Env) (n : ℕ)
    (h : (tryBody req env).2 = Except.ok n) :
    env.outputExists = true ∧ 1000 ≤ env.outputSize := by
  unfold tryBody at h
  rcases hv : validateRequest req with _ | msg
  · simp only [hv] at h
    split_ifs at h
    simp_all [Nat.not_lt]
  · simp [hv] at h

/-- A string with a non-empty left part is non-empty. -/
theorem append_ne_empty_left (a b : String) (h : a.length ≠ 0) : a ++ b ≠ "" := by
  intro hab
  apply h
  have hl : (a ++ b).length = 0 := by rw [hab]; rfl
  rw [String.length_append] at hl
  omega

/-- C7 (counterexample): with every stage succeeding and an output of
exactly 1000 bytes — a size that does not exceed 1000 — the job completes
successfully, because the code fails only on `size < 1000`. -/
theorem output_size_threshold_cex :
    env1000.outputSize = 1000
    ∧ ¬ (1000 < env1000.outputSize)
    ∧ (handleRender 0 okReq env1000).2.status = "complete"
    ∧ (handleRender 0 okReq env1000).2.success = some true := by decide

/-- C7 (amended): the job succeeds only if the output file exists and its
size is at least 1000 bytes; when every earlier stage succeeded but the
output is missing or smaller than 1000 bytes, the job takes the error
path with a non-empty message and never uploads. -/
theorem output_validation_spec (active : ℕ) (req : RenderRequest) (env : Env) :
    ((handleRender active req env).2.status = "complete" →
        env.outputExists = true ∧ 1000 ≤ env.outputSize)
    ∧ (active < MAX_CONCURRENT_RENDERS →
       validateRequest req = none →
       env.downloadsOk = true → env.preprocessOk = true → env.assemblyOk = true →
       (env.outputExists = false ∨ env.outputSize < 1000) →
         (handleRender active req env).2.httpStatus = 500
         ∧ (handleRender active req env).2.status = "error"
         ∧ (∃ m, (handleRender active req env).2.error = some m ∧ m ≠ "")
         ∧ Ev.upload ∉ (handleRender active req env).1) := by
  constructor
  · intro hs
    by_cases hA : MAX_CONCURRENT_RENDERS ≤ active
    · exact absurd hs (by simp [handleRender, hA, busyResponse])
    · rcases ht : tryBody req env with ⟨evs, r⟩
      cases r with
      | ok n => exact tryBody_ok_inv req env n (by rw [ht])
      | error m => exact absurd hs (by simp [handleRender, hA, ht])
  · intro hA hV hd hp ha hbad
    have hA2 : ¬ MAX_CONCURRENT_RENDERS ≤ active := by omega
    by_cases hex : env.outputExists = false
    · have ht : tryBody req env
          = ([Ev.mkdirWorkspace, Ev.download, Ev.runSubprocess, Ev.runSubprocess],
             Except.error "FFmpeg produced no output file") := by
        unfold tryBody
        simp [hV, hd, hp, ha, hex]
      refine ⟨by simp [handleRender, hA2, ht], by simp [handleRender, hA2, ht],
        ⟨"FFmpeg produced no output file", by simp [handleRender, hA2, ht], by decide⟩,
        by simp [handleRender, hA2, ht]⟩
    · have hex2 : env.outputExists = true := by simpa using hex
      have hsmall : env.outputSize < 1000 := by
        rcases hbad with h | h
        · exact absurd h hex
        · exact h
      have ht : tryBody req env
          = ([Ev.mkdirWorkspace, Ev.download, Ev.runSubprocess, Ev.runSubprocess],
             Except.error ("Output file suspiciously small: "
               ++ toString env.outputSize ++ " bytes")) := by
        unfold tryBody
        simp [hV, hd, hp, ha, hex2, hsmall]
      refine ⟨by simp [handleRender, hA2, ht], by simp [handleRender, hA2, ht],
        ⟨"Output file suspiciously small: " ++ toString env.outputSize ++ " bytes",
          by simp [handleRender, hA2, ht], ?_⟩,
        by simp [handleRender, hA2, ht]⟩
      apply append_ne_empty_left
      rw [String.length_append]
      have hc : ("Output file suspiciously small: ").length ≠ 0 := by decide
      omega

/-- Witness for `output_validation_spec`: a missing output file fails the
job without an upload. -/
theorem output_validation_spec_witness :
    (handleRender 0 okReq envNoOutput).2.httpStatus = 500
    ∧ Ev.upload ∉ (handleRender 0 okReq envNoOutput).1 := by
  have h := (output_validation_spec 0 okReq envNoOutput).2
    (by decide) (by decide) rfl rfl rfl (Or.inl rfl)
  exact ⟨h.1, h.2.2.2⟩
